import Mathlib

/-!
Verification of the KOLMO computation pipeline (kolmo.wiazor.com v2.1.1).

Shallow embedding of the Python sources into Lean 4.  The arbitrary-precision
decimal.Decimal arithmetic of the source (context precision 28) is modelled by
exact rational arithmetic over ℚ: every operation the embedded code performs
(addition, subtraction, multiplication, division by a nonzero value, absolute
value, comparison, exact equality) agrees with Decimal on the inputs considered,
except that Decimal rounds quotients to 28 significant digits where ℚ is exact.
Fallible Python code (raise) is modelled with Except.  Nullable values
(None) are modelled with Option.
-/

/-- KolmoState from src/kolmo/models.py: tri-state classification of the
invariant deviation. -/
inductive KolmoState where
  | OK
  | WARN
  | CRITICAL
deriving DecidableEq, Repr

/-- WinnerCoin from src/kolmo/models.py: the three instrument identifiers.
The string values are IOU2, ME4U, UOME. -/
inductive WinnerCoin where
  | IOU2
  | ME4U
  | UOME
deriving DecidableEq, Repr

/-- SelectionRule from src/kolmo/models.py. -/
inductive SelectionRule where
  | max_positive_alphabetical_tiebreak
  | least_negative
  | default_first_day
deriving DecidableEq, Repr

/-- Position of each coin name in the alphabetical string order used by
Python sorted() on the names: IOU2 < ME4U < UOME. -/
def coinIdx : WinnerCoin → Nat
  | .IOU2 => 0
  | .ME4U => 1
  | .UOME => 2

/-- The alphabetical comparison on coin names, as Python sorted() uses. -/
def coinLE (a b : WinnerCoin) : Prop := coinIdx a ≤ coinIdx b

instance : DecidableRel coinLE := fun a b => by
  unfold coinLE; infer_instance

instance : IsTotal WinnerCoin coinLE :=
  ⟨fun a b => Nat.le_total (coinIdx a) (coinIdx b)⟩

instance : IsTrans WinnerCoin coinLE :=
  ⟨fun _ _ _ hab hbc => Nat.le_trans hab hbc⟩

instance : IsAntisymm WinnerCoin coinLE :=
  ⟨fun a b hab hba => by
    cases a <;> cases b <;> first | rfl | (exact absurd (Nat.le_antisymm hab hba) (by decide))⟩

/-- Python sorted() over a list of coin names, modelled as insertion sort by
the alphabetical order on the names. -/
def sortCoins (l : List WinnerCoin) : List WinnerCoin :=
  List.insertionSort coinLE l

/-! ## KOLMOCalculator (src/kolmo/computation/calculator.py) -/

namespace KOLMOCalculator

/-- WARN_THRESHOLD = Decimal 0.01 from calculator.py. -/
def WARN_THRESHOLD : ℚ := 1/100

/-- CRITICAL_THRESHOLD = Decimal 0.05 from calculator.py. -/
def CRITICAL_THRESHOLD : ℚ := 5/100

/-- compute_kolmo_value from calculator.py: exact product of the three rates. -/
def compute_kolmo_value (r_me4u r_iou2 r_uome : ℚ) : ℚ :=
  r_me4u * r_iou2 * r_uome

/-- compute_deviation from calculator.py: absolute deviation of the invariant
from 1.0. -/
def compute_deviation (kolmo_value : ℚ) : ℚ :=
  |kolmo_value - 1|

/-- compute_state from calculator.py: OK if deviation < WARN_THRESHOLD, WARN if
deviation < CRITICAL_THRESHOLD, else CRITICAL. -/
def compute_state (kolmo_value : ℚ) : KolmoState :=
  let deviation := compute_deviation kolmo_value
  if deviation < WARN_THRESHOLD then KolmoState.OK
  else if deviation < CRITICAL_THRESHOLD then KolmoState.WARN
  else KolmoState.CRITICAL

/-- compute_distance from calculator.py: distance from parity in percent. -/
def compute_distance (rate : ℚ) : ℚ :=
  |rate - 1| * 100

/-- compute_relativepath from calculator.py: None when the previous distance is
None or exactly zero, else the day-over-day percentage change of distance. -/
def compute_relativepath (dist_current : ℚ) (dist_previous : Option ℚ) : Option ℚ :=
  match dist_previous with
  | none => none
  | some p => if p = 0 then none else some (((p - dist_current) / p) * 100)

end KOLMOCalculator

/-! ## Claim C3: compute_relativepath -/

/-- C3: compute_relativepath d p is none exactly when p is none or exactly
zero; otherwise it is (p - d) / p * 100; in particular
compute_relativepath 80 (some 100) = some 20 and
compute_relativepath 100 (some 80) = some (-25). -/
theorem relativepath_spec :
    (∀ d : ℚ, ∀ p : Option ℚ,
      (KOLMOCalculator.compute_relativepath d p = none ↔ p = none ∨ p = some 0)) ∧
    (∀ d pv : ℚ, pv ≠ 0 →
      KOLMOCalculator.compute_relativepath d (some pv) = some (((pv - d) / pv) * 100)) ∧
    KOLMOCalculator.compute_relativepath 80 (some 100) = some 20 ∧
    KOLMOCalculator.compute_relativepath 100 (some 80) = some (-25) := by
  refine ⟨?_, ?_, ?_, ?_⟩
  · intro d p
    match p with
    | none => simp [KOLMOCalculator.compute_relativepath]
    | some pv =>
      by_cases h : pv = 0 <;>
        simp [KOLMOCalculator.compute_relativepath, h]
  · intro d pv hpv
    simp [KOLMOCalculator.compute_relativepath, hpv]
  · norm_num [KOLMOCalculator.compute_relativepath]
  · norm_num [KOLMOCalculator.compute_relativepath]

/-- C3 witness: the formula branch of relativepath_spec instantiated at the
concrete input d = 80, previous distance 100. -/
theorem relativepath_spec_witness :
    KOLMOCalculator.compute_relativepath 80 (some 100) = some 20 := by
  have h := relativepath_spec.2.1 80 100 (by norm_num)
  rw [h]
  norm_num

/-! ## Claim C4: compute_state boundaries -/

/-- C4: compute_state returns OK exactly when the deviation is below 1 percent,
WARN exactly on [1 percent, 5 percent), CRITICAL exactly at or above 5 percent;
at a deviation of exactly 1 percent the state is WARN and at exactly 5 percent
it is CRITICAL. -/
theorem compute_state_spec :
    (∀ k : ℚ,
      (KOLMOCalculator.compute_state k = KolmoState.OK ↔ |k - 1| < 1/100) ∧
      (KOLMOCalculator.compute_state k = KolmoState.WARN ↔
        1/100 ≤ |k - 1| ∧ |k - 1| < 5/100) ∧
      (KOLMOCalculator.compute_state k = KolmoState.CRITICAL ↔ 5/100 ≤ |k - 1|)) ∧
    KOLMOCalculator.compute_state (101/100) = KolmoState.WARN ∧
    KOLMOCalculator.compute_state (105/100) = KolmoState.CRITICAL := by
  refine ⟨?_, ?_, ?_⟩
  · intro k
    simp only [KOLMOCalculator.compute_state, KOLMOCalculator.compute_deviation,
      KOLMOCalculator.WARN_THRESHOLD, KOLMOCalculator.CRITICAL_THRESHOLD]
    split_ifs with h1 h2
    · exact ⟨⟨fun _ => h1, fun _ => rfl⟩,
        ⟨fun h => absurd h (by decide), fun h => absurd h1 (not_lt.mpr h.1)⟩,
        ⟨fun h => absurd h (by decide), fun h => absurd h1 (not_lt.mpr (by linarith))⟩⟩
    · exact ⟨⟨fun h => absurd h (by decide), fun h => absurd h h1⟩,
        ⟨fun _ => ⟨not_lt.mp h1, h2⟩, fun _ => rfl⟩,
        ⟨fun h => absurd h (by decide), fun h => absurd h2 (not_lt.mpr h)⟩⟩
    · exact ⟨⟨fun h => absurd h (by decide), fun h => absurd h h1⟩,
        ⟨fun h => absurd h (by decide), fun h => absurd h.2 h2⟩,
        ⟨fun _ => not_lt.mp h2, fun _ => rfl⟩⟩
  · norm_num [KOLMOCalculator.compute_state, KOLMOCalculator.compute_deviation,
      KOLMOCalculator.WARN_THRESHOLD, KOLMOCalculator.CRITICAL_THRESHOLD,
      abs_of_nonneg]
  · norm_num [KOLMOCalculator.compute_state, KOLMOCalculator.compute_deviation,
      KOLMOCalculator.WARN_THRESHOLD, KOLMOCalculator.CRITICAL_THRESHOLD,
      abs_of_nonneg]

/-! ## RateTransformer (src/kolmo/computation/transformer.py) -/

/-- KolmoRates from src/kolmo/models.py: the three canonical instrument rates.
Every field carries a pydantic gt-zero constraint, enforced whenever the model
is constructed; mkKolmoRates models that validating construction. -/
structure KolmoRates where
  r_me4u : ℚ
  r_iou2 : ℚ
  r_uome : ℚ
deriving DecidableEq, Repr

/-- Pydantic validation run at every construction of KolmoRates: the gt-zero
Field constraints on the three rates of models.py; a non-positive rate raises
ValidationError. -/
def mkKolmoRates (r : KolmoRates) : Except String KolmoRates :=
  if r.r_me4u ≤ 0 then Except.error ("r_me4u must be greater than 0")
  else if r.r_iou2 ≤ 0 then Except.error ("r_iou2 must be greater than 0")
  else if r.r_uome ≤ 0 then Except.error ("r_uome must be greater than 0")
  else Except.ok r

namespace RateTransformer

/-- DIMENSIONAL_TOLERANCE = Decimal 0.05 from transformer.py. -/
def DIMENSIONAL_TOLERANCE : ℚ := 5/100

/-- transform from transformer.py: maps the two EUR-based market quotes to the
three canonical rates r_me4u = eur_usd / eur_cny, r_iou2 = 1 / eur_usd,
r_uome = eur_cny, recomputes the product and raises ValueError when its
absolute deviation from 1 exceeds DIMENSIONAL_TOLERANCE, then constructs the
KolmoRates pydantic model, whose gt-zero field validation runs at that point
(transformer.py line 229). -/
def transform (eur_usd eur_cny : ℚ) : Except String KolmoRates :=
  let r_me4u := eur_usd / eur_cny
  let r_iou2 := 1 / eur_usd
  let r_uome := eur_cny
  let kolmo_value := r_me4u * r_iou2 * r_uome
  let deviation := |kolmo_value - 1|
  if deviation > DIMENSIONAL_TOLERANCE then
    Except.error ("Dimensional analysis failed")
  else
    mkKolmoRates ⟨r_me4u, r_iou2, r_uome⟩

end RateTransformer

/-- Keyword-argument calling conventions seen at call sites of
RateTransformer.transform in this repository: the engine calls it with the
eur_usd and eur_cny keywords, while scripts/sample_rub_transform.py calls it
with the rub_usd and rub_cny keywords. -/
inductive TransformCall where
  | eur_keywords (eur_usd eur_cny : ℚ)
  | rub_keywords (rub_usd rub_cny : ℚ)
deriving DecidableEq, Repr

/-- CPython keyword binding against the actual signature of
RateTransformer.transform, which declares exactly the parameters eur_usd and
eur_cny: a call supplying the rub_usd and rub_cny keywords does not bind and
raises TypeError before any formula is applied. -/
def transform_call : TransformCall → Except String KolmoRates
  | .eur_keywords eur_usd eur_cny => RateTransformer.transform eur_usd eur_cny
  | .rub_keywords _ _ =>
      Except.error ("TypeError: transform got an unexpected keyword argument rub_usd")

/-! ## Claim C5: primary transform mode -/

/-- C5: for every pair of positive market inputs the transformer succeeds with
r_me4u = eur_usd / eur_cny, r_iou2 = 1 / eur_usd, r_uome = eur_cny, whose
exact product is 1, so on that domain it fails exactly when the recomputed
product of the fresh rates deviates from 1 by more than 0.05 (never), the
failure branch is unreachable and the post-transform deviation is at most
0.05. -/
theorem transform_spec :
    (∀ e c : ℚ, 0 < e → 0 < c →
      ((∃ msg, RateTransformer.transform e c = Except.error msg) ↔
        |e / c * (1 / e) * c - 1| > 5/100)) ∧
    (∀ e c : ℚ, 0 < e → 0 < c →
      RateTransformer.transform e c = Except.ok ⟨e / c, 1 / e, c⟩ ∧
      e / c * (1 / e) * c = 1 ∧
      |e / c * (1 / e) * c - 1| ≤ 5/100) := by
  have hok : ∀ e c : ℚ, 0 < e → 0 < c →
      RateTransformer.transform e c = Except.ok ⟨e / c, 1 / e, c⟩ ∧
      e / c * (1 / e) * c = 1 ∧
      |e / c * (1 / e) * c - 1| ≤ 5/100 := by
    intro e c he hc
    have hprod : e / c * (1 / e) * c = 1 := by
      field_simp
      ring
    have h1 : ¬(e / c ≤ 0) := not_le.mpr (div_pos he hc)
    have h2 : ¬(1 / e ≤ 0) := not_le.mpr (by positivity)
    have h3 : ¬(c ≤ 0) := not_le.mpr hc
    have h4 : ¬(e ≤ 0) := not_le.mpr he
    refine ⟨?_, hprod, ?_⟩
    · simp only [RateTransformer.transform, RateTransformer.DIMENSIONAL_TOLERANCE]
      rw [hprod]
      norm_num [mkKolmoRates, h1, h2, h3, h4]
    · rw [hprod]
      norm_num
  constructor
  · intro e c he hc
    constructor
    · rintro ⟨msg, hmsg⟩
      rw [(hok e c he hc).1] at hmsg
      exact absurd hmsg (by simp)
    · intro hgt
      rw [(hok e c he hc).2.1] at hgt
      norm_num at hgt
  · exact hok

/-- C5 witness: transform_spec instantiated at the positive inputs
eur_usd = 2, eur_cny = 4, discharging the positivity hypotheses of both
conjuncts: the transform succeeds with the stated rates, and it does not
fail there because the recomputed deviation, exactly 0, is within 0.05. -/
theorem transform_spec_witness :
    RateTransformer.transform 2 4 = Except.ok ⟨2/4, 1/2, 4⟩ ∧
    ¬∃ msg, RateTransformer.transform 2 4 = Except.error msg := by
  refine ⟨(transform_spec.2 2 4 (by norm_num) (by norm_num)).1, ?_⟩
  intro hex
  have h := (transform_spec.1 2 4 (by norm_num) (by norm_num)).mp hex
  norm_num at h

/-! ## Claim C8: the rub-basis calling convention -/

/-- C8 evaluation: the rub-keyword calling convention used by
scripts/sample_rub_transform.py (rub_usd = 82.50, rub_cny = 11.90) is rejected
by the transform signature with a TypeError instead of being given the
corresponding rub-basis formula, while the eur-keyword convention is the only
one the function implements. -/
theorem transform_rub_call_rejected :
    transform_call (TransformCall.rub_keywords (165/2) (119/10)) =
      Except.error ("TypeError: transform got an unexpected keyword argument rub_usd") ∧
    (∀ e c : ℚ, transform_call (TransformCall.eur_keywords e c) =
      RateTransformer.transform e c) :=
  ⟨rfl, fun _ _ => rfl⟩

/-! ## ComputeDataCreate (src/kolmo/models.py) -/

/-- WinnerReason from src/kolmo/models.py. The source stores the relpath
values as floats and the tied coins as strings; the float conversion is
modelled as the identity on the exact rational values and the names as
WinnerCoin, since no claim depends on binary float rounding. -/
structure WinnerReason where
  me4u_relpath : Option ℚ
  iou2_relpath : Option ℚ
  uome_relpath : Option ℚ
  max_relpath : Option ℚ
  tied_coins : List WinnerCoin
  selection_rule : SelectionRule
  winner : WinnerCoin
deriving DecidableEq, Repr

/-- ComputeDataCreate from src/kolmo/models.py, restricted to the fields the
claims are about; the date, the three volatility fields and the UUID audit
fields are not used by any claim and are omitted. -/
structure ComputeDataCreate where
  r_me4u : ℚ
  r_iou2 : ℚ
  r_uome : ℚ
  kolmo_value : ℚ
  kolmo_deviation : ℚ
  kolmo_state : KolmoState
  dist_me4u : ℚ
  dist_iou2 : ℚ
  dist_uome : ℚ
  relpath_me4u : Option ℚ
  relpath_iou2 : Option ℚ
  relpath_uome : Option ℚ
  winner : WinnerCoin
  winner_reason : WinnerReason
deriving DecidableEq, Repr

/-- Pydantic validation run at every construction of ComputeDataCreate: the
gt-zero field constraints on the three rates, the ge-zero constraint on
kolmo_deviation, and the model validator validate_kolmo_exact_product, which
raises ValueError unless kolmo_value equals the exact product
r_me4u * r_iou2 * r_uome. -/
def mkComputeDataCreate (c : ComputeDataCreate) : Except String ComputeDataCreate :=
  if c.r_me4u ≤ 0 then Except.error ("r_me4u must be greater than 0")
  else if c.r_iou2 ≤ 0 then Except.error ("r_iou2 must be greater than 0")
  else if c.r_uome ≤ 0 then Except.error ("r_uome must be greater than 0")
  else if c.kolmo_deviation < 0 then Except.error ("kolmo_deviation must be nonnegative")
  else if c.kolmo_value ≠ c.r_me4u * c.r_iou2 * c.r_uome then
    Except.error ("Amendment A1 Violation: kolmo_value is not the exact product")
  else Except.ok c

/-! ## Claim C1: the exact-product invariant is unconstructible to violate -/

/-- C1: every successfully constructed ComputeDataCreate satisfies
kolmo_value = r_me4u * r_iou2 * r_uome exactly, and any attempted construction
whose kolmo_value differs from the exact product is rejected, so a violating
record is unconstructible. -/
theorem compute_data_exact_product :
    (∀ c d : ComputeDataCreate, mkComputeDataCreate c = Except.ok d →
      d.kolmo_value = d.r_me4u * d.r_iou2 * d.r_uome) ∧
    (∀ c : ComputeDataCreate,
      c.kolmo_value ≠ c.r_me4u * c.r_iou2 * c.r_uome →
      ∀ d, mkComputeDataCreate c ≠ Except.ok d) := by
  constructor
  · intro c d h
    unfold mkComputeDataCreate at h
    split_ifs at h
    obtain rfl := Except.ok.inj h
    exact not_not.mp (by assumption)
  · intro c hne d
    unfold mkComputeDataCreate
    split_ifs
    all_goals simp

/-- A well-formed WinnerReason used in concrete records. -/
def sampleReason : WinnerReason :=
  ⟨none, none, none, none, [], SelectionRule.default_first_day, WinnerCoin.IOU2⟩

/-- A concrete record satisfying every validation constraint. -/
def sampleGoodRecord : ComputeDataCreate :=
  ⟨1/2, 1/2, 4, 1, 0, KolmoState.OK, 50, 50, 300,
   none, none, none, WinnerCoin.IOU2, sampleReason⟩

/-- The same record with kolmo_value 2, which is not the exact product. -/
def sampleBadRecord : ComputeDataCreate :=
  { sampleGoodRecord with kolmo_value := 2 }

/-- C1 witness: compute_data_exact_product instantiated at concrete records:
the valid record constructs and satisfies the invariant, the violating record
is rejected. -/
theorem compute_data_exact_product_witness :
    mkComputeDataCreate sampleGoodRecord = Except.ok sampleGoodRecord ∧
    sampleGoodRecord.kolmo_value =
      sampleGoodRecord.r_me4u * sampleGoodRecord.r_iou2 * sampleGoodRecord.r_uome ∧
    mkComputeDataCreate sampleBadRecord ≠ Except.ok sampleBadRecord := by
  have hok : mkComputeDataCreate sampleGoodRecord = Except.ok sampleGoodRecord := by
    norm_num [mkComputeDataCreate, sampleGoodRecord]
  exact ⟨hok, compute_data_exact_product.1 sampleGoodRecord sampleGoodRecord hok,
    compute_data_exact_product.2 sampleBadRecord
      (by norm_num [sampleBadRecord, sampleGoodRecord]) sampleBadRecord⟩

/-! ## Historical backfill classifier (src/scripts/backfill_historical.py) -/

/-- State classification inside compute_kolmo_metrics of
scripts/backfill_historical.py: kolmo_deviation = (k - 1) * 100 as a signed
percentage, abs_deviation its absolute value, OK when abs_deviation <= 1,
WARN when abs_deviation <= 5, CRITICAL otherwise. -/
def backfill_kolmo_state (kolmo_value : ℚ) : KolmoState :=
  let kolmo_deviation := (kolmo_value - 1) * 100
  let abs_deviation := |kolmo_deviation|
  if abs_deviation ≤ 1 then KolmoState.OK
  else if abs_deviation ≤ 5 then KolmoState.WARN
  else KolmoState.CRITICAL

/-! ## Claim C9: backfill classifier versus KOLMOCalculator.compute_state -/

/-- C9 counterexample: at invariant value 1.01 the backfill script classifies
OK while KOLMOCalculator.compute_state classifies WARN, so the two tri-state
classifications are not equal. -/
theorem backfill_state_mismatch :
    backfill_kolmo_state (101/100) = KolmoState.OK ∧
    KOLMOCalculator.compute_state (101/100) = KolmoState.WARN := by
  constructor
  · norm_num [backfill_kolmo_state, abs_of_nonneg]
  · norm_num [KOLMOCalculator.compute_state, KOLMOCalculator.compute_deviation,
      KOLMOCalculator.WARN_THRESHOLD, KOLMOCalculator.CRITICAL_THRESHOLD,
      abs_of_nonneg]

/-- C9 amended: the backfill classification agrees with
KOLMOCalculator.compute_state at every invariant value whose deviation from 1
is not exactly 0.01 and not exactly 0.05; at those two boundary deviations the
backfill script reports the milder state (OK instead of WARN, WARN instead of
CRITICAL). -/
theorem backfill_state_agrees_off_boundaries (k : ℚ)
    (h1 : |k - 1| ≠ 1/100) (h5 : |k - 1| ≠ 5/100) :
    backfill_kolmo_state k = KOLMOCalculator.compute_state k := by
  simp only [backfill_kolmo_state, KOLMOCalculator.compute_state,
    KOLMOCalculator.compute_deviation, KOLMOCalculator.WARN_THRESHOLD,
    KOLMOCalculator.CRITICAL_THRESHOLD]
  have hx : |(k - 1) * 100| = |k - 1| * 100 := by
    rw [abs_mul, abs_of_nonneg (by norm_num : (0:ℚ) ≤ 100)]
  rw [hx]
  have e1 : (|k - 1| * 100 ≤ 1) ↔ (|k - 1| < 1/100) := by
    constructor
    · intro h
      exact lt_of_le_of_ne (by linarith) h1
    · intro h
      linarith
  have e5 : (|k - 1| * 100 ≤ 5) ↔ (|k - 1| < 5/100) := by
    constructor
    · intro h
      exact lt_of_le_of_ne (by linarith) h5
    · intro h
      linarith
  simp only [e1, e5]

/-- C9 witness: the amended agreement instantiated at the concrete invariant
value 1, where both classifiers return OK. -/
theorem backfill_state_agrees_witness :
    backfill_kolmo_state 1 = KOLMOCalculator.compute_state 1 ∧
    backfill_kolmo_state 1 = KolmoState.OK := by
  refine ⟨backfill_state_agrees_off_boundaries 1 (by norm_num) (by norm_num), ?_⟩
  norm_num [backfill_kolmo_state]

/-! ## Query surface row conversion (src/kolmo/api/routes.py) -/

/-- One stored mcol1_compute_data row as read back by the query surface,
restricted to the fields _row_to_response converts with a truthiness test;
kolmo_value and winner stand in for the fields converted unconditionally. -/
structure MetricsRow where
  kolmo_value : ℚ
  winner : WinnerCoin
  dist_me4u : Option ℚ
  dist_iou2 : Option ℚ
  dist_uome : Option ℚ
  relpath_me4u : Option ℚ
  relpath_iou2 : Option ℚ
  relpath_uome : Option ℚ
deriving DecidableEq, Repr

/-- The response payload produced by _row_to_response, restricted to the same
fields. -/
structure WinnerResponse where
  kolmo_value : ℚ
  winner : WinnerCoin
  dist_me4u : Option ℚ
  dist_iou2 : Option ℚ
  dist_uome : Option ℚ
  relpath_me4u : Option ℚ
  relpath_iou2 : Option ℚ
  relpath_uome : Option ℚ
deriving DecidableEq, Repr

/-- The Python expression float(x) if x else None applied to a nullable
numeric column value: None and exactly zero are falsy and map to None, every
other value passes through (the float conversion is modelled as the identity
on the exact value, since no claim depends on binary float rounding). -/
def pyTruthyOrNone (v : Option ℚ) : Option ℚ :=
  match v with
  | none => none
  | some x => if x = 0 then none else some x

/-- _row_to_response from src/kolmo/api/routes.py, lines 267 to 272: each
distance and RelativePath field is converted with the truthiness test
float(row[field]) if row[field] else None. -/
def row_to_response (r : MetricsRow) : WinnerResponse :=
  { kolmo_value := r.kolmo_value
    winner := r.winner
    dist_me4u := pyTruthyOrNone r.dist_me4u
    dist_iou2 := pyTruthyOrNone r.dist_iou2
    dist_uome := pyTruthyOrNone r.dist_uome
    relpath_me4u := pyTruthyOrNone r.relpath_me4u
    relpath_iou2 := pyTruthyOrNone r.relpath_iou2
    relpath_uome := pyTruthyOrNone r.relpath_uome }

/-- The truthiness conversion returns None exactly on None and on exactly
zero. -/
theorem pyTruthyOrNone_none_iff (v : Option ℚ) :
    pyTruthyOrNone v = none ↔ v = none ∨ v = some 0 := by
  match v with
  | none => simp [pyTruthyOrNone]
  | some x =>
    by_cases h : x = 0 <;> simp [pyTruthyOrNone, h]

/-! ## Claim C10: stored zeros become nulls in responses -/

/-- C10: in the row-to-response conversion of the query surface, every
distance and RelativePath response field is null exactly when the stored value
is null or exactly zero, so a stored metric equal to exactly 0 is returned as
null and is indistinguishable from an absent value. -/
theorem row_to_response_zero_becomes_null :
    ∀ r : MetricsRow,
      ((row_to_response r).dist_me4u = none ↔
        r.dist_me4u = none ∨ r.dist_me4u = some 0) ∧
      ((row_to_response r).dist_iou2 = none ↔
        r.dist_iou2 = none ∨ r.dist_iou2 = some 0) ∧
      ((row_to_response r).dist_uome = none ↔
        r.dist_uome = none ∨ r.dist_uome = some 0) ∧
      ((row_to_response r).relpath_me4u = none ↔
        r.relpath_me4u = none ∨ r.relpath_me4u = some 0) ∧
      ((row_to_response r).relpath_iou2 = none ↔
        r.relpath_iou2 = none ∨ r.relpath_iou2 = some 0) ∧
      ((row_to_response r).relpath_uome = none ↔
        r.relpath_uome = none ∨ r.relpath_uome = some 0) :=
  fun r =>
    ⟨pyTruthyOrNone_none_iff r.dist_me4u,
     pyTruthyOrNone_none_iff r.dist_iou2,
     pyTruthyOrNone_none_iff r.dist_uome,
     pyTruthyOrNone_none_iff r.relpath_me4u,
     pyTruthyOrNone_none_iff r.relpath_iou2,
     pyTruthyOrNone_none_iff r.relpath_uome⟩

/-! ## WinnerSelector (src/kolmo/computation/winner.py) -/

namespace WinnerSelector

/-- One entry of the candidates dictionary: a coin is included exactly when
its RelativePath is not None. -/
def toEntries (c : WinnerCoin) (v : Option ℚ) : List (WinnerCoin × ℚ) :=
  match v with
  | none => []
  | some x => [(c, x)]

/-- The candidates dictionary built by select, in its Python insertion order
ME4U, IOU2, UOME, with None RelativePaths excluded. -/
def candList (relpath_me4u relpath_iou2 relpath_uome : Option ℚ) :
    List (WinnerCoin × ℚ) :=
  toEntries WinnerCoin.ME4U relpath_me4u ++ toEntries WinnerCoin.IOU2 relpath_iou2 ++
    toEntries WinnerCoin.UOME relpath_uome

/-- Python max over the nonempty collection of candidate values. -/
def maxVal (e : WinnerCoin × ℚ) (rest : List (WinnerCoin × ℚ)) : ℚ :=
  rest.foldl (fun a p => max a p.2) e.2

/-- The nonempty-candidates branch of select: max RelativePath, alphabetically
sorted tied coins, winner the first tied coin (the list is provably nonempty,
so the headD default is never taken, mirroring the total indexing
tied_coins[0] of the source), rule positive-max versus least-negative. -/
def selectFrom (relpath_me4u relpath_iou2 relpath_uome : Option ℚ)
    (e : WinnerCoin × ℚ) (rest : List (WinnerCoin × ℚ)) :
    WinnerCoin × WinnerReason :=
  let max_relpath := maxVal e rest
  let tied_coins :=
    sortCoins (((e :: rest).filter (fun p => decide (p.2 = max_relpath))).map Prod.fst)
  let winner := tied_coins.headD WinnerCoin.IOU2
  let rule := if 0 < max_relpath then SelectionRule.max_positive_alphabetical_tiebreak
    else SelectionRule.least_negative
  (winner,
    ⟨relpath_me4u, relpath_iou2, relpath_uome, some max_relpath, tied_coins,
     rule, winner⟩)

/-- WinnerSelector.select from src/kolmo/computation/winner.py: all-None input
returns IOU2 with the default-first-day reason, otherwise the
nonempty-candidates branch runs. -/
def select (relpath_me4u relpath_iou2 relpath_uome : Option ℚ) :
    WinnerCoin × WinnerReason :=
  match candList relpath_me4u relpath_iou2 relpath_uome with
  | [] =>
      (WinnerCoin.IOU2,
        ⟨none, none, none, none, [], SelectionRule.default_first_day,
         WinnerCoin.IOU2⟩)
  | e :: rest => selectFrom relpath_me4u relpath_iou2 relpath_uome e rest

/-- The RelativePath input associated with each coin. -/
def relAt (m i u : Option ℚ) : WinnerCoin → Option ℚ
  | .ME4U => m
  | .IOU2 => i
  | .UOME => u

/-- The fixed alphabetical order of the three coin names. -/
def alphaCoins : List WinnerCoin :=
  [WinnerCoin.IOU2, WinnerCoin.ME4U, WinnerCoin.UOME]

theorem mem_candList (m i u : Option ℚ) (c : WinnerCoin) (w : ℚ) :
    (c, w) ∈ candList m i u ↔ relAt m i u c = some w := by
  cases m <;> cases i <;> cases u <;> cases c <;>
    simp [candList, toEntries, relAt, eq_comm]

theorem candList_eq_nil (m i u : Option ℚ) :
    candList m i u = [] ↔ m = none ∧ i = none ∧ u = none := by
  cases m <;> cases i <;> cases u <;> simp [candList, toEntries]

theorem candList_map_fst_nodup (m i u : Option ℚ) :
    ((candList m i u).map Prod.fst).Nodup := by
  cases m <;> cases i <;> cases u <;> simp [candList, toEntries]

theorem le_foldl_max (l : List (WinnerCoin × ℚ)) (a : ℚ) :
    a ≤ l.foldl (fun x p => max x p.2) a := by
  induction l generalizing a with
  | nil => exact le_refl a
  | cons q t ih =>
    exact le_trans (le_max_left a q.2) (ih (max a q.2))

theorem mem_le_foldl_max (l : List (WinnerCoin × ℚ)) (p : WinnerCoin × ℚ)
    (hp : p ∈ l) (a : ℚ) : p.2 ≤ l.foldl (fun x q => max x q.2) a := by
  induction l generalizing a with
  | nil => cases hp
  | cons q t ih =>
    rcases List.mem_cons.mp hp with h | h
    · subst h
      exact le_trans (le_max_right a p.2) (le_foldl_max t (max a p.2))
    · exact ih h (max a q.2)

theorem foldl_max_mem (l : List (WinnerCoin × ℚ)) (a : ℚ) :
    l.foldl (fun x p => max x p.2) a = a ∨
      ∃ p ∈ l, l.foldl (fun x p => max x p.2) a = p.2 := by
  induction l generalizing a with
  | nil => exact Or.inl rfl
  | cons q t ih =>
    rcases ih (max a q.2) with h | ⟨p, hp, he⟩
    · rcases le_total a q.2 with hle | hle
      · refine Or.inr ⟨q, List.mem_cons_self q t, ?_⟩
        rw [List.foldl_cons, h, max_eq_right hle]
      · refine Or.inl ?_
        rw [List.foldl_cons, h, max_eq_left hle]
    · exact Or.inr ⟨p, List.mem_cons_of_mem q hp, he⟩

theorem le_maxVal (e : WinnerCoin × ℚ) (rest : List (WinnerCoin × ℚ))
    (p : WinnerCoin × ℚ) (hp : p ∈ e :: rest) : p.2 ≤ maxVal e rest := by
  rcases List.mem_cons.mp hp with h | h
  · subst h
    exact le_foldl_max rest p.2
  · exact mem_le_foldl_max rest p h e.2

theorem maxVal_mem (e : WinnerCoin × ℚ) (rest : List (WinnerCoin × ℚ)) :
    ∃ p ∈ e :: rest, p.2 = maxVal e rest := by
  rcases foldl_max_mem rest e.2 with h | ⟨p, hp, he⟩
  · exact ⟨e, List.mem_cons_self e rest, h.symm⟩
  · exact ⟨p, List.mem_cons_of_mem e hp, he.symm⟩

theorem sortCoins_sorted (l : List WinnerCoin) :
    List.Sorted coinLE (sortCoins l) :=
  List.sorted_insertionSort coinLE l

theorem sortCoins_perm (l : List WinnerCoin) : List.Perm (sortCoins l) l :=
  List.perm_insertionSort coinLE l

theorem mem_sortCoins (l : List WinnerCoin) (x : WinnerCoin) :
    x ∈ sortCoins l ↔ x ∈ l :=
  (sortCoins_perm l).mem_iff

theorem head_sortCoins_min (l : List WinnerCoin) (hd : WinnerCoin)
    (tl : List WinnerCoin) (h : sortCoins l = hd :: tl) :
    hd ∈ l ∧ ∀ x ∈ l, coinLE hd x := by
  have hs : List.Sorted coinLE (hd :: tl) := h ▸ sortCoins_sorted l
  constructor
  · exact (mem_sortCoins l hd).mp (h ▸ List.mem_cons_self hd tl)
  · intro x hx
    have hx2 : x ∈ hd :: tl := h ▸ (mem_sortCoins l x).mpr hx
    rcases List.mem_cons.mp hx2 with rfl | hx3
    · exact le_refl (coinIdx x)
    · exact List.rel_of_sorted_cons hs x hx3

theorem sortCoins_eq_alphaFilter (names : List WinnerCoin) (hnodup : names.Nodup)
    (P : WinnerCoin → Prop) [DecidablePred P] (hmem : ∀ c, c ∈ names ↔ P c) :
    sortCoins names = alphaCoins.filter (fun c => decide (P c)) := by
  have hfnodup : (alphaCoins.filter (fun c => decide (P c))).Nodup :=
    List.Nodup.filter _ (by decide)
  apply List.eq_of_perm_of_sorted (r := coinLE)
  · refine (sortCoins_perm names).trans ?_
    rw [List.perm_ext_iff_of_nodup hnodup hfnodup]
    intro c
    rw [hmem c, List.mem_filter]
    constructor
    · intro h
      refine ⟨by cases c <;> simp [alphaCoins], by simpa using h⟩
    · intro h
      simpa using h.2
  · exact sortCoins_sorted names
  · exact List.Sorted.filter _ (by decide : List.Sorted coinLE alphaCoins)

end WinnerSelector

/-! ## Claim C2: the winner selector -/

/-- C2: with all three RelativePaths None the selector returns IOU2 under the
default-first-day rule; otherwise there is a maximum mx among the non-None
inputs, the tied set is exactly the alphabetically ordered list of instruments
whose RelativePath equals mx, the winner is the alphabetically first tied
instrument, and the rule is the positive-max tiebreak when mx > 0 and
least-negative otherwise; the four concrete examples of the claim evaluate as
stated. -/
theorem winner_select_spec :
    (∀ m i u : Option ℚ,
      (m = none ∧ i = none ∧ u = none →
        WinnerSelector.select m i u =
          (WinnerCoin.IOU2,
            ⟨none, none, none, none, [], SelectionRule.default_first_day,
             WinnerCoin.IOU2⟩)) ∧
      (¬(m = none ∧ i = none ∧ u = none) →
        ∃ mx : ℚ,
          (WinnerSelector.select m i u).2.max_relpath = some mx ∧
          (∀ c w, WinnerSelector.relAt m i u c = some w → w ≤ mx) ∧
          (∃ c, WinnerSelector.relAt m i u c = some mx) ∧
          (WinnerSelector.select m i u).2.tied_coins =
            WinnerSelector.alphaCoins.filter
              (fun c => decide (WinnerSelector.relAt m i u c = some mx)) ∧
          WinnerSelector.relAt m i u (WinnerSelector.select m i u).1 = some mx ∧
          (∀ c, WinnerSelector.relAt m i u c = some mx →
            coinIdx (WinnerSelector.select m i u).1 ≤ coinIdx c) ∧
          (WinnerSelector.select m i u).2.selection_rule =
            (if 0 < mx then SelectionRule.max_positive_alphabetical_tiebreak
             else SelectionRule.least_negative) ∧
          (WinnerSelector.select m i u).2.winner = (WinnerSelector.select m i u).1)) ∧
    WinnerSelector.select (some (-35/100)) (some (324/100)) (some (5/100)) =
      (WinnerCoin.IOU2,
        ⟨some (-35/100), some (324/100), some (5/100), some (324/100),
         [WinnerCoin.IOU2], SelectionRule.max_positive_alphabetical_tiebreak,
         WinnerCoin.IOU2⟩) ∧
    WinnerSelector.select (some (-210/100)) (some (-85/100)) (some (-150/100)) =
      (WinnerCoin.IOU2,
        ⟨some (-210/100), some (-85/100), some (-150/100), some (-85/100),
         [WinnerCoin.IOU2], SelectionRule.least_negative, WinnerCoin.IOU2⟩) ∧
    WinnerSelector.select (some (324/100)) (some (324/100)) (some 1) =
      (WinnerCoin.IOU2,
        ⟨some (324/100), some (324/100), some 1, some (324/100),
         [WinnerCoin.IOU2, WinnerCoin.ME4U],
         SelectionRule.max_positive_alphabetical_tiebreak, WinnerCoin.IOU2⟩) ∧
    WinnerSelector.select none none none =
      (WinnerCoin.IOU2,
        ⟨none, none, none, none, [], SelectionRule.default_first_day,
         WinnerCoin.IOU2⟩) := by
  refine ⟨?_, ?_, ?_, ?_, rfl⟩
  · intro m i u
    constructor
    · rintro ⟨rfl, rfl, rfl⟩
      rfl
    · intro hne
      obtain ⟨e, rest, hcl⟩ : ∃ e rest, WinnerSelector.candList m i u = e :: rest := by
        rcases h : WinnerSelector.candList m i u with _ | ⟨e, rest⟩
        · exact absurd ((WinnerSelector.candList_eq_nil m i u).mp h) hne
        · exact ⟨e, rest, rfl⟩
      have hsel : WinnerSelector.select m i u = WinnerSelector.selectFrom m i u e rest := by
        unfold WinnerSelector.select
        rw [hcl]
      have hub : ∀ c w, WinnerSelector.relAt m i u c = some w →
          w ≤ WinnerSelector.maxVal e rest := by
        intro c w hrel
        have hmem : (c, w) ∈ e :: rest := by
          rw [← hcl]
          exact (WinnerSelector.mem_candList m i u c w).mpr hrel
        exact WinnerSelector.le_maxVal e rest (c, w) hmem
      have hatt : ∃ c, WinnerSelector.relAt m i u c = some (WinnerSelector.maxVal e rest) := by
        obtain ⟨p, hp, hpe⟩ := WinnerSelector.maxVal_mem e rest
        refine ⟨p.1, ?_⟩
        have hmem : (p.1, p.2) ∈ WinnerSelector.candList m i u := by
          rw [hcl]
          simpa using hp
        have h2 := (WinnerSelector.mem_candList m i u p.1 p.2).mp hmem
        rw [h2, hpe]
      have hmemnames : ∀ c,
          c ∈ ((e :: rest).filter
            (fun p => decide (p.2 = WinnerSelector.maxVal e rest))).map Prod.fst ↔
          WinnerSelector.relAt m i u c = some (WinnerSelector.maxVal e rest) := by
        intro c
        constructor
        · intro hcn
          obtain ⟨p, hpf, hp1⟩ := List.mem_map.mp hcn
          obtain ⟨hpl1, hpl2⟩ := List.mem_filter.mp hpf
          obtain ⟨p1, p2⟩ := p
          simp only [decide_eq_true_eq] at hpl2
          simp only at hp1
          subst hp1
          subst hpl2
          exact (WinnerSelector.mem_candList m i u p1 _).mp (by rw [hcl]; exact hpl1)
        · intro hrel
          have hmemc : (c, WinnerSelector.maxVal e rest) ∈ e :: rest := by
            rw [← hcl]
            exact (WinnerSelector.mem_candList m i u c (WinnerSelector.maxVal e rest)).mpr hrel
          exact List.mem_map.mpr
            ⟨(c, WinnerSelector.maxVal e rest),
             List.mem_filter.mpr ⟨hmemc, by simp⟩, rfl⟩
      have hnodupnames :
          (((e :: rest).filter
            (fun p => decide (p.2 = WinnerSelector.maxVal e rest))).map Prod.fst).Nodup := by
        have hsub : List.Sublist
            (((e :: rest).filter
              (fun p => decide (p.2 = WinnerSelector.maxVal e rest))).map Prod.fst)
            ((e :: rest).map Prod.fst) :=
          List.Sublist.map Prod.fst (List.filter_sublist _)
        have hnd : ((e :: rest).map Prod.fst).Nodup := by
          rw [← hcl]
          exact WinnerSelector.candList_map_fst_nodup m i u
        exact List.Nodup.sublist hsub hnd
      have htiedeq :
          sortCoins (((e :: rest).filter
            (fun p => decide (p.2 = WinnerSelector.maxVal e rest))).map Prod.fst) =
            WinnerSelector.alphaCoins.filter
              (fun c => decide (WinnerSelector.relAt m i u c =
                some (WinnerSelector.maxVal e rest))) :=
        WinnerSelector.sortCoins_eq_alphaFilter _ hnodupnames _ hmemnames
      obtain ⟨c0, hc0⟩ := hatt
      have hc0names : c0 ∈ sortCoins (((e :: rest).filter
          (fun p => decide (p.2 = WinnerSelector.maxVal e rest))).map Prod.fst) :=
        (WinnerSelector.mem_sortCoins _ c0).mpr ((hmemnames c0).mpr hc0)
      obtain ⟨hd, tl, hhd⟩ : ∃ hd tl, sortCoins (((e :: rest).filter
          (fun p => decide (p.2 = WinnerSelector.maxVal e rest))).map Prod.fst) = hd :: tl := by
        rcases h : sortCoins (((e :: rest).filter
            (fun p => decide (p.2 = WinnerSelector.maxVal e rest))).map Prod.fst) with _ | ⟨hd, tl⟩
        · rw [h] at hc0names
          exact absurd hc0names (List.not_mem_nil c0)
        · exact ⟨hd, tl, h⟩
      have hmin := WinnerSelector.head_sortCoins_min _ hd tl hhd
      have hfst : (WinnerSelector.select m i u).1 = hd := by
        rw [hsel]
        show (sortCoins (((e :: rest).filter
          (fun p => decide (p.2 = WinnerSelector.maxVal e rest))).map Prod.fst)).headD
            WinnerCoin.IOU2 = hd
        rw [hhd]
        rfl
      refine ⟨WinnerSelector.maxVal e rest, ?_, hub,
        ⟨c0, hc0⟩, ?_, ?_, ?_, ?_, ?_⟩
      · rw [hsel]
        rfl
      · rw [hsel]
        exact htiedeq
      · rw [hfst]
        exact (hmemnames hd).mp hmin.1
      · intro c hcrel
        rw [hfst]
        exact hmin.2 c ((hmemnames c).mpr hcrel)
      · rw [hsel]
        rfl
      · rw [hsel]
        rfl
  · norm_num [WinnerSelector.select, WinnerSelector.candList, WinnerSelector.toEntries,
      WinnerSelector.selectFrom, WinnerSelector.maxVal, sortCoins, List.insertionSort,
      List.orderedInsert, coinLE, coinIdx, max_def]
  · norm_num [WinnerSelector.select, WinnerSelector.candList, WinnerSelector.toEntries,
      WinnerSelector.selectFrom, WinnerSelector.maxVal, sortCoins, List.insertionSort,
      List.orderedInsert, coinLE, coinIdx, max_def]
  · norm_num [WinnerSelector.select, WinnerSelector.candList, WinnerSelector.toEntries,
      WinnerSelector.selectFrom, WinnerSelector.maxVal, sortCoins, List.insertionSort,
      List.orderedInsert, coinLE, coinIdx, max_def]

/-- C2 witness: winner_select_spec instantiated at the concrete inputs
(none, none, none), discharging the all-None hypothesis, and
(some 1, none, none), discharging the nonempty hypothesis, with the rule
evaluated. -/
theorem winner_select_spec_witness :
    WinnerSelector.select none none none =
      (WinnerCoin.IOU2,
        ⟨none, none, none, none, [], SelectionRule.default_first_day,
         WinnerCoin.IOU2⟩) ∧
    (WinnerSelector.select (some 1) none none).2.selection_rule =
      SelectionRule.max_positive_alphabetical_tiebreak := by
  constructor
  · exact (winner_select_spec.1 none none none).1 ⟨rfl, rfl, rfl⟩
  · obtain ⟨mx, hmax, hub, ⟨c, hc⟩, htied, hwin, hmin, hrule, hwr⟩ :=
      (winner_select_spec.1 (some 1) none none).2 (by simp)
    have hmx : mx = 1 := by
      cases c <;> simp [WinnerSelector.relAt] at hc
      first
        | exact hc
        | exact hc.symm
    rw [hrule, hmx]
    norm_num

/-! ## ProviderManager (src/kolmo/providers/manager.py) -/

/-- RateProviderError from src/kolmo/providers/base.py: the provider that
raised and its error kind; the message and details are not used by any claim
and omitted. -/
structure RateProviderError where
  provider : String
  error_type : String
deriving DecidableEq, Repr

/-- One append-only telemetry row written by _log_stats; the date and latency
fields are not used by any claim and are omitted.  _log_stats catches its own
storage failures, so recording never aborts the attempt loop, and the rows
are modelled as the list returned beside the result. -/
structure ProviderAttempt where
  provider : String
  attempt_order : Nat
  success : Bool
  error_type : Option String
deriving DecidableEq, Repr

/-- The error kind recorded for one adapter outcome. -/
def errKind {α : Type} : Except RateProviderError α → Option String
  | Except.error e => some e.error_type
  | Except.ok _ => none

/-- The (provider, kind) pair an adapter failure contributes to the aggregate
error. -/
def failPair {α : Type} : Except RateProviderError α → String × String
  | Except.error e => (e.provider, e.error_type)
  | Except.ok _ => ("", "")

/-- The telemetry rows produced by a run of consecutive failing adapters
starting at the given attempt order. -/
def failAttempts {α : Type} (idx : Nat) :
    List (String × Except RateProviderError α) → List ProviderAttempt
  | [] => []
  | (name, res) :: rest =>
      ⟨name, idx, false, errKind res⟩ :: failAttempts (idx + 1) rest

/-- The attempt loop of ProviderManager.fetch_with_fallback: each adapter is
tried in order; a success records one success row and returns immediately; a
failure records one failure row, appends its (provider, kind) pair to the
accumulated failures and advances; exhausting the list raises the aggregate
error carrying the accumulated failures. -/
def fetchLoop {α : Type} (idx : Nat) (errs : List (String × String)) :
    List (String × Except RateProviderError α) →
      Except (List (String × String)) (α × String) × List ProviderAttempt
  | [] => (Except.error errs, [])
  | (name, res) :: rest =>
      match res with
      | Except.ok rates => (Except.ok (rates, name), [⟨name, idx, true, none⟩])
      | Except.error e =>
          let r := fetchLoop (idx + 1) (errs ++ [(e.provider, e.error_type)]) rest
          (r.1, ⟨name, idx, false, some e.error_type⟩ :: r.2)

/-- ProviderManager.fetch_with_fallback from manager.py: the adapters are
tried strictly sequentially starting at attempt order 1, per the adapter
contract of base.py under which fetch_rates fails with RateProviderError. -/
def fetch_with_fallback {α : Type}
    (providers : List (String × Except RateProviderError α)) :
    Except (List (String × String)) (α × String) × List ProviderAttempt :=
  fetchLoop 1 [] providers

theorem fetchLoop_cons_error {α : Type} (idx : Nat) (errs : List (String × String))
    (pname : String) (e : RateProviderError)
    (rest : List (String × Except RateProviderError α)) :
    fetchLoop idx errs ((pname, Except.error e) :: rest) =
      ((fetchLoop (idx + 1) (errs ++ [(e.provider, e.error_type)]) rest).1,
       ⟨pname, idx, false, some e.error_type⟩ ::
         (fetchLoop (idx + 1) (errs ++ [(e.provider, e.error_type)]) rest).2) := rfl

theorem fetchLoop_success {α : Type}
    (pre : List (String × Except RateProviderError α))
    (post : List (String × Except RateProviderError α)) (name : String) (q : α) :
    ∀ (idx : Nat) (errs : List (String × String)),
      (∀ p ∈ pre, ∃ e, p.2 = Except.error e) →
      fetchLoop idx errs (pre ++ (name, Except.ok q) :: post) =
        (Except.ok (q, name),
         failAttempts idx pre ++ [⟨name, idx + pre.length, true, none⟩]) := by
  induction pre with
  | nil =>
    intro idx errs _
    simp [fetchLoop, failAttempts]
  | cons p pre ih =>
    intro idx errs hpre
    obtain ⟨e, he⟩ := hpre p (List.mem_cons_self p pre)
    have hrest : ∀ x ∈ pre, ∃ er, x.2 = Except.error er :=
      fun x hx => hpre x (List.mem_cons_of_mem p hx)
    obtain ⟨pname, pres⟩ := p
    simp only at he
    subst he
    have harith : idx + 1 + pre.length = idx + (pre.length + 1) := by omega
    rw [List.cons_append, fetchLoop_cons_error,
      ih (idx + 1) (errs ++ [(e.provider, e.error_type)]) hrest]
    simp [failAttempts, errKind, harith]

theorem fetchLoop_allfail {α : Type}
    (ps : List (String × Except RateProviderError α)) :
    ∀ (idx : Nat) (errs : List (String × String)),
      (∀ p ∈ ps, ∃ e, p.2 = Except.error e) →
      fetchLoop idx errs ps =
        (Except.error (errs ++ ps.map (fun p => failPair p.2)),
         failAttempts idx ps) := by
  induction ps with
  | nil =>
    intro idx errs _
    simp [fetchLoop, failAttempts]
  | cons p rest ih =>
    intro idx errs h
    obtain ⟨e, he⟩ := h p (List.mem_cons_self p rest)
    have hrest : ∀ x ∈ rest, ∃ er, x.2 = Except.error er :=
      fun x hx => h x (List.mem_cons_of_mem p hx)
    obtain ⟨pname, pres⟩ := p
    simp only at he
    subst he
    simp only [fetchLoop, ih (idx + 1) (errs ++ [(e.provider, e.error_type)]) hrest,
      failAttempts, errKind, failPair, List.map_cons]
    simp [List.append_assoc]

/-! ## Claim C6: strict sequential fallback with telemetry -/

/-- C6: if every adapter before position k fails and the adapter at position k
succeeds, fetch_with_fallback returns the rates and the name of that adapter,
exactly k telemetry rows (k - 1 failures then one success at attempt order k)
and never depends on the adapters after k; if every adapter fails it raises a
single aggregate error carrying the ordered (provider, kind) pairs of all
failures, with one failure telemetry row per adapter. -/
theorem fetch_with_fallback_spec {α : Type} :
    (∀ (pre post : List (String × Except RateProviderError α)) (name : String) (q : α),
      (∀ p ∈ pre, ∃ e, p.2 = Except.error e) →
      fetch_with_fallback (pre ++ (name, Except.ok q) :: post) =
        (Except.ok (q, name),
         failAttempts 1 pre ++ [⟨name, pre.length + 1, true, none⟩])) ∧
    (∀ ps : List (String × Except RateProviderError α),
      (∀ p ∈ ps, ∃ e, p.2 = Except.error e) →
      fetch_with_fallback ps =
        (Except.error (ps.map (fun p => failPair p.2)), failAttempts 1 ps)) := by
  constructor
  · intro pre post name q hpre
    have h := fetchLoop_success pre post name q 1 [] hpre
    rw [fetch_with_fallback, h, Nat.add_comm 1 pre.length]
  · intro ps h
    have h2 := fetchLoop_allfail ps 1 [] h
    rw [fetch_with_fallback, h2]
    simp

/-- C6 witness: fetch_with_fallback_spec instantiated at the concrete adapter
lists of the claim: frankfurter fails, cbr succeeds, twelvedata is configured
after cbr and never reached; and a second list in which all three fail. -/
theorem fetch_with_fallback_spec_witness :
    fetch_with_fallback
      [("frankfurter", (Except.error ⟨"frankfurter", "TIMEOUT"⟩ : Except RateProviderError ℚ)),
       ("cbr", Except.ok (76 : ℚ)),
       ("twelvedata", Except.ok (77 : ℚ))] =
      (Except.ok ((76 : ℚ), "cbr"),
       [⟨"frankfurter", 1, false, some ("TIMEOUT")⟩, ⟨"cbr", 2, true, none⟩]) ∧
    fetch_with_fallback
      [("frankfurter", (Except.error ⟨"frankfurter", "TIMEOUT"⟩ : Except RateProviderError ℚ)),
       ("cbr", Except.error ⟨"cbr", "PARSE"⟩),
       ("twelvedata", Except.error ⟨"twelvedata", "HTTP_ERROR"⟩)] =
      (Except.error
        [("frankfurter", "TIMEOUT"), ("cbr", "PARSE"), ("twelvedata", "HTTP_ERROR")],
       [⟨"frankfurter", 1, false, some ("TIMEOUT")⟩,
        ⟨"cbr", 2, false, some ("PARSE")⟩,
        ⟨"twelvedata", 3, false, some ("HTTP_ERROR")⟩]) := by
  constructor
  · have h := (fetch_with_fallback_spec (α := ℚ)).1
      [("frankfurter", Except.error ⟨"frankfurter", "TIMEOUT"⟩)]
      [("twelvedata", Except.ok 77)] "cbr" 76
      (by
        intro p hp
        rw [List.mem_singleton] at hp
        subst hp
        exact ⟨⟨"frankfurter", "TIMEOUT"⟩, rfl⟩)
    simpa [failAttempts, errKind] using h
  · have h := (fetch_with_fallback_spec (α := ℚ)).2
      [("frankfurter", Except.error ⟨"frankfurter", "TIMEOUT"⟩),
       ("cbr", Except.error ⟨"cbr", "PARSE"⟩),
       ("twelvedata", Except.error ⟨"twelvedata", "HTTP_ERROR"⟩)]
      (by
        intro p hp
        simp only [List.mem_cons, List.not_mem_nil, or_false] at hp
        rcases hp with rfl | rfl | rfl
        · exact ⟨⟨"frankfurter", "TIMEOUT"⟩, rfl⟩
        · exact ⟨⟨"cbr", "PARSE"⟩, rfl⟩
        · exact ⟨⟨"twelvedata", "HTTP_ERROR"⟩, rfl⟩)
    simpa [failAttempts, errKind, failPair] using h

/-! ## ComputationEngine (src/kolmo/computation/engine.py) -/

/-- ExternalDataCreate from src/kolmo/models.py, restricted to the two market
quotes the Compute stage consumes; the date, auxiliary rates, provenance and
UUID fields are not used by any claim and are omitted. -/
structure ExternalDataCreate where
  eur_usd : ℚ
  eur_cny : ℚ
deriving DecidableEq, Repr

/-- A storage-layer failure raised by the durable-store query. -/
structure StorageError where
  message : String
deriving DecidableEq, Repr

/-- The previous-day distances row read back from mcol1_compute_data. -/
structure PrevDistances where
  dist_me4u : ℚ
  dist_iou2 : ℚ
  dist_uome : ℚ
deriving DecidableEq, Repr

/-- ComputationEngine._get_previous_distances from engine.py, lines 135 to
170: the outcome of the store query for the most recent strictly earlier row
is passed in explicitly.  The source wraps the query in a try block whose
except clause catches every exception, logs a warning and falls through to
the all-None dictionary, so a StorageError outcome yields the same all-None
previous distances as a genuinely missing prior row. -/
def get_previous_distances
    (queryResult : Except StorageError (Option PrevDistances)) :
    Option ℚ × Option ℚ × Option ℚ :=
  match queryResult with
  | Except.error _ => (none, none, none)
  | Except.ok none => (none, none, none)
  | Except.ok (some row) =>
      (some row.dist_me4u, some row.dist_iou2, some row.dist_uome)

/-- ComputationEngine.compute_daily_metrics from engine.py: transform the raw
quotes, compute the exact invariant with its deviation and state, compute the
three distances, look up the previous-day distances, compute the
RelativePaths, select the winner, and construct the pydantic-validated
ComputeDataCreate. -/
def compute_daily_metrics (external_data : ExternalDataCreate)
    (queryResult : Except StorageError (Option PrevDistances)) :
    Except String ComputeDataCreate := do
  let rates ← RateTransformer.transform external_data.eur_usd external_data.eur_cny
  let kolmo_value :=
    KOLMOCalculator.compute_kolmo_value rates.r_me4u rates.r_iou2 rates.r_uome
  let kolmo_deviation := KOLMOCalculator.compute_deviation kolmo_value
  let kolmo_state := KOLMOCalculator.compute_state kolmo_value
  let dist_me4u := KOLMOCalculator.compute_distance rates.r_me4u
  let dist_iou2 := KOLMOCalculator.compute_distance rates.r_iou2
  let dist_uome := KOLMOCalculator.compute_distance rates.r_uome
  let prev := get_previous_distances queryResult
  let relpath_me4u := KOLMOCalculator.compute_relativepath dist_me4u prev.1
  let relpath_iou2 := KOLMOCalculator.compute_relativepath dist_iou2 prev.2.1
  let relpath_uome := KOLMOCalculator.compute_relativepath dist_uome prev.2.2
  let sel := WinnerSelector.select relpath_me4u relpath_iou2 relpath_uome
  mkComputeDataCreate
    ⟨rates.r_me4u, rates.r_iou2, rates.r_uome, kolmo_value, kolmo_deviation,
     kolmo_state, dist_me4u, dist_iou2, dist_uome, relpath_me4u, relpath_iou2,
     relpath_uome, sel.1, sel.2⟩

/-! ## Claim C7: a failed previous-day lookup is silently swallowed -/

/-- C7 evaluation at the failing input: with raw quotes eur_usd = 2,
eur_cny = 4 and a previous-day store query that raises
StorageError connection refused, _get_previous_distances swallows the error
into all-None previous distances and compute_daily_metrics succeeds with null
RelativePaths and the default-first-day selection rule, exactly the outcome
the claim (and the failure semantics of the spec) says must not occur. -/
theorem storage_error_swallowed :
    get_previous_distances (Except.error ⟨"connection refused"⟩) =
      (none, none, none) ∧
    compute_daily_metrics ⟨2, 4⟩ (Except.error ⟨"connection refused"⟩) =
      Except.ok
        ⟨1/2, 1/2, 4, 1, 0, KolmoState.OK, 50, 50, 300, none, none, none,
         WinnerCoin.IOU2,
         ⟨none, none, none, none, [], SelectionRule.default_first_day,
          WinnerCoin.IOU2⟩⟩ := by
  constructor
  · rfl
  · norm_num [compute_daily_metrics, RateTransformer.transform,
      RateTransformer.DIMENSIONAL_TOLERANCE, KOLMOCalculator.compute_kolmo_value,
      KOLMOCalculator.compute_deviation, KOLMOCalculator.compute_state,
      KOLMOCalculator.compute_distance, KOLMOCalculator.compute_relativepath,
      KOLMOCalculator.WARN_THRESHOLD, KOLMOCalculator.CRITICAL_THRESHOLD,
      get_previous_distances, WinnerSelector.select, WinnerSelector.candList,
      WinnerSelector.toEntries, mkComputeDataCreate, mkKolmoRates, Except.pure,
      Bind.bind, Except.bind, abs_of_nonneg, abs_of_nonpos]
